import Mathlib

/-!
Verification of the `reqwest-retry` crate against its design document.

The development shallowly embeds the crate's two retry engines:

* the engine of `src/retry_future.rs` + `src/config.rs` (per-reason policy
  overrides, telemetry callbacks, pluggable backoff), and
* the legacy engine of `src/lib.rs` (base policy only, inline exponential
  backoff, no telemetry),

together with the pure backoff functions of `src/backoff.rs`.

Modelling conventions:

* `std::time::Duration` values are modelled by their length in milliseconds
  as an unbounded natural number (every function of the crate that does
  arithmetic on durations first converts to milliseconds via `as_millis`).
* Rust `u64` arithmetic is modelled on `Nat` with explicit reduction
  `% 2 ^ 64` exactly where the source's `u64` operations can wrap.
  `saturating_add` is modelled by clamping at `2 ^ 64 - 1`.
* `f64` arithmetic (the `backoff_multiplier` computations and the jitter
  fraction) is idealised as exact rational arithmetic; the saturating
  `as u64` float-to-integer cast is modelled by `u64clampQ`.
* `reqwest::Error` is abstracted to the fields the crate inspects
  (`is_timeout`, `is_connect`, `is_request`, `status`, display string);
  `reqwest::Response` to its status code.
* The `std` `DefaultHasher` used by `exponential_jitter` is not part of the
  repository; it is abstracted as an arbitrary function `Nat → Nat`, and
  every statement about `exponential_jitter` is proved for all hashers.
* Callback configuration (`Option<fn(&RetryAttempt)>`) is modelled by a
  `Bool` saying whether a callback is installed; the engine records the
  `RetryAttempt` values passed to installed callbacks in an event trace,
  together with transport sends and timer sleeps.
-/

namespace ReqwestRetry

/-- Durations are modelled as their number of milliseconds (see header). -/
abbrev Duration := Nat

/-- Rust `as u64` on an unbounded natural: reduction modulo `2 ^ 64`. -/
def u64cast (n : Nat) : Nat := n % 2 ^ 64

/-- Rust `as i32` (two's-complement wrap) on an unbounded natural. -/
def i32cast (n : Nat) : Int :=
  if n % 2 ^ 32 < 2 ^ 31 then ((n % 2 ^ 32 : Nat) : Int)
  else ((n % 2 ^ 32 : Nat) : Int) - 2 ^ 32

/-- Rust's saturating `as u64` cast from `f64`, on the rational model of
`f64`: negative values go to `0`, values above `u64::MAX` to `u64::MAX`,
otherwise truncation toward zero. -/
def u64clampQ (q : ℚ) : Nat :=
  if q < 0 then 0 else min (Int.floor q).toNat (2 ^ 64 - 1)

/-! ### Backoff functions (`src/backoff.rs`) -/

/-- `backoff::linear`: `(base_delay.as_millis() as u64 * attempt as u64)
.min(max_delay.as_millis() as u64)`.  The multiplication is an unchecked
`u64` multiplication, hence the inner `u64cast`. -/
def linear (attempt : Nat) (base_delay : Duration) (_multiplier : ℚ)
    (max_delay : Duration) : Duration :=
  min (u64cast (u64cast base_delay * u64cast attempt)) (u64cast max_delay)

/-- `backoff::fixed`: `0` on attempt `0`, otherwise `base_delay` verbatim
(no clamping against `max_delay`). -/
def fixed (attempt : Nat) (base_delay : Duration) (_multiplier : ℚ)
    (_max_delay : Duration) : Duration :=
  if attempt = 0 then 0 else base_delay

/-- The inner `fib` of `backoff::fibonacci`: the iterative loop with
`u64::saturating_add` at each step, written as the equivalent recurrence. -/
def fib : Nat → Nat
  | 0 => 0
  | 1 => 1
  | n + 2 => min (fib n + fib (n + 1)) (2 ^ 64 - 1)

/-- `backoff::fibonacci`: `fib_multiplier = fib(attempt + 1).max(1)`;
`(base_delay.as_millis() as u64 * fib_multiplier).min(max_delay.as_millis()
as u64)`.  The outer multiplication is an unchecked `u64` multiplication. -/
def fibonacci (attempt : Nat) (base_delay : Duration) (_multiplier : ℚ)
    (max_delay : Duration) : Duration :=
  let fib_multiplier := max (fib (attempt + 1)) 1
  min (u64cast (u64cast base_delay * fib_multiplier)) (u64cast max_delay)

/-- `backoff::exponential_jitter` with the `DefaultHasher` abstracted as
`hash64` (the finished hash of the attempt number).  `jitter_factor =
(hash % 1000) / 1000`; `exponential_delay = base * multiplier.powi(attempt
as i32)`; `jittered = exponential_delay * (0.5 + jitter_factor * 0.5)`;
result `jittered.min(max_delay) as u64`. -/
def exponential_jitter (hash64 : Nat → Nat) (attempt : Nat)
    (base_delay : Duration) (multiplier : ℚ) (max_delay : Duration) :
    Duration :=
  let jitter_factor : ℚ := ((hash64 attempt % 1000 : Nat) : ℚ) / 1000
  let exponential_delay : ℚ := (base_delay : ℚ) * multiplier ^ i32cast attempt
  let jittered_delay : ℚ := exponential_delay * (1 / 2 + jitter_factor * (1 / 2))
  u64clampQ (min jittered_delay ((max_delay : ℚ)))

/-- Modelled from the spec: `default_backoff`, the crate-root default
backoff function, absent from `src/`.  Per the spec and the pinned values
in `src/tests.rs` it is plain exponential backoff `min(base_delay *
multiplier ^ attempt, max_delay)` computed in `f64` — the same formula the
legacy engine of `src/lib.rs` inlines. -/
def default_backoff (attempt : Nat) (base_delay : Duration) (multiplier : ℚ)
    (max_delay : Duration) : Duration :=
  let exponential_delay : ℚ := (base_delay : ℚ) * multiplier ^ i32cast attempt
  u64clampQ (min exponential_delay ((max_delay : ℚ)))

/-! ### Data model -/

/-- Modelled from the spec: `RetryReason`, the crate-root failure-category
tag, absent from `src/` (spec §3: closed-plus-extensible, identity by
value). -/
inductive RetryReason where
  | NetworkError
  | ServerError
  | RateLimit
  | RequestError
  | Custom (s : String)
deriving DecidableEq

/-- A `reqwest::Response`, abstracted to the only field the crate
inspects: its HTTP status code. -/
structure Response where
  status : Nat
deriving DecidableEq

/-- A `reqwest::Error`, abstracted to the fields the crate inspects:
the `is_timeout` / `is_connect` / `is_request` discriminators, the
optional HTTP status the error carries, and its display string (used for
telemetry via `to_string`). -/
structure Failure where
  is_timeout : Bool
  is_connect : Bool
  is_request : Bool
  status : Option Nat
  msg : String
deriving DecidableEq

/-- `StatusCode::is_server_error`: `500..=599`. -/
def isServerError (s : Nat) : Bool := decide (500 ≤ s ∧ s ≤ 599)

/-- `default_should_retry_error` (`src/lib.rs`): retry on timeouts,
connect errors, request-construction errors, and errors carrying a
server-error status. -/
def default_should_retry_error (e : Failure) : Bool :=
  e.is_timeout || e.is_connect || e.is_request ||
    (match e.status with
     | some s => isServerError s
     | none => false)

/-- `default_should_retry_response` (`src/lib.rs`): retry on a
server-error status or 429 Too Many Requests. -/
def default_should_retry_response (r : Response) : Bool :=
  isServerError r.status || r.status == 429

/-- Modelled from the spec: `default_error_classifier`, absent from
`src/` (spec §4.2): connection/timeout errors map to `NetworkError`;
errors carrying an HTTP status map to `ServerError` when the status is a
server error, else `RequestError`; all remaining errors (malformed or
unsendable requests) map to `RequestError`. -/
def default_error_classifier (e : Failure) : RetryReason :=
  if e.is_timeout || e.is_connect then .NetworkError
  else
    match e.status with
    | some s => if isServerError s then .ServerError else .RequestError
    | none => .RequestError

/-- Modelled from the spec: `default_response_classifier`, absent from
`src/` (spec §4.2): server-error statuses map to `ServerError`, 429 maps
to `RateLimit`, everything else to `RequestError`. -/
def default_response_classifier (r : Response) : RetryReason :=
  if isServerError r.status then .ServerError
  else if r.status == 429 then .RateLimit
  else .RequestError

/-- The type of configurable backoff functions
`fn(usize, Duration, f64, Duration) -> Duration`. -/
abbrev BackoffFnT := Nat → Duration → ℚ → Duration → Duration

/-- Modelled from the spec: `ErrorStrategy`, the per-reason partial
policy, absent from `src/` (spec §3 `PolicyOverride`: all fields optional;
the field set is the one read by `RetryConfig::get_effective_strategy`). -/
structure ErrorStrategy where
  max_retries : Option Nat := none
  base_delay : Option Duration := none
  max_delay : Option Duration := none
  backoff_multiplier : Option ℚ := none
  backoff_fn : Option BackoffFnT := none

/-- Modelled from the spec: `EffectiveStrategy`, the fully resolved
policy, absent from `src/` (spec §3: every field concrete after the
merge; the field set is the one produced by
`RetryConfig::get_effective_strategy`). -/
structure EffectiveStrategy where
  max_retries : Nat
  base_delay : Duration
  max_delay : Duration
  backoff_multiplier : ℚ
  backoff_fn : BackoffFnT

/-- Modelled from the spec: `RetryAttempt`, the telemetry snapshot,
absent from `src/` (spec §3; the field set is the one constructed in
`RetryFuture::poll`). -/
structure RetryAttempt where
  attempt : Nat
  max_attempts : Nat
  delay : Duration
  error : Option String
  response_status : Option Nat
  error_type : RetryReason
deriving DecidableEq

/-- `RetryConfig` (`src/config.rs`).  The `HashMap<RetryReason,
ErrorStrategy>` is modelled as an association list (`HashMap` lookup by
value equality).  `on_retry` / `on_failure` record whether the optional
callback is installed.  `cloneable` models whether
`request_builder.try_clone()` succeeds for the request the engine was
built with (a property of the request, constant across attempts). -/
structure RetryConfig where
  max_retries : Nat
  base_delay : Duration
  max_delay : Duration
  backoff_multiplier : ℚ
  should_retry : Failure → Bool
  should_retry_response : Response → Bool
  backoff_fn : BackoffFnT
  on_retry : Bool
  on_failure : Bool
  error_strategies : List (RetryReason × ErrorStrategy)
  error_classifier : Failure → RetryReason
  response_classifier : Response → RetryReason
  cloneable : Bool

/-- `RetryConfig::default()` (`src/config.rs` lines 39–56): 3 retries,
100 ms base delay, 30 s max delay, multiplier 2.0, default predicates,
classifiers and backoff, no callbacks, no per-reason strategies. -/
def RetryConfig.mkDefault : RetryConfig where
  max_retries := 3
  base_delay := 100
  max_delay := 30000
  backoff_multiplier := 2
  should_retry := default_should_retry_error
  should_retry_response := default_should_retry_response
  backoff_fn := default_backoff
  on_retry := false
  on_failure := false
  error_strategies := []
  error_classifier := default_error_classifier
  response_classifier := default_response_classifier
  cloneable := true

/-- `RetryConfig::get_effective_strategy` (`src/config.rs` lines
140–158): look the reason up in `error_strategies`; each field is
`strategy.and_then(|s| s.field).unwrap_or(self.field)`. -/
def RetryConfig.get_effective_strategy (c : RetryConfig)
    (error_type : RetryReason) : EffectiveStrategy :=
  let strategy := List.lookup error_type c.error_strategies
  { max_retries := (strategy.bind (fun s => s.max_retries)).getD c.max_retries
    base_delay := (strategy.bind (fun s => s.base_delay)).getD c.base_delay
    max_delay := (strategy.bind (fun s => s.max_delay)).getD c.max_delay
    backoff_multiplier :=
      (strategy.bind (fun s => s.backoff_multiplier)).getD c.backoff_multiplier
    backoff_fn := (strategy.bind (fun s => s.backoff_fn)).getD c.backoff_fn }

/-! ### The retry engine of `src/retry_future.rs` -/

/-- One completed transport outcome: `Ok(Response)` or
`Err(reqwest::Error)`.  A run is driven by `outcomes : Nat → Outcome`
giving the completed outcome of the `n`-th transport send (the engine's
`attempts` counter equals the number of sends already completed whenever
a send is issued, so sends are indexed by it). -/
inductive Outcome where
  | ok (response : Response)
  | err (error : Failure)

/-- The terminal result of a run: the `Ok` response or a
`RetryError` constructor (`src/error.rs`). -/
inductive RetryResult where
  | success (response : Response)
  | maxRetriesExceeded
  | nonRetryableError (error : Failure)
  | requestError (error : Failure)
  | requestBuilderCloneError
deriving DecidableEq

/-- Observable events of a run: a transport send, a backoff sleep of a
given duration, and the `RetryAttempt` values passed to the installed
`on_retry` / `on_failure` callbacks. -/
inductive Ev where
  | send
  | sleepFor (d : Duration)
  | onRetryEv (a : RetryAttempt)
  | onFailureEv (a : RetryAttempt)
deriving DecidableEq

/-- The `RetryState` of the state machine.  (`RetryState::Done` is never
assigned by `poll` and is omitted; terminal results are returned
directly.) -/
inductive Phase where
  | ready
  | requesting
  | sleeping (d : Duration)
deriving DecidableEq

/-- The mutable fields of `RetryFuture` (`src/retry_future.rs`). -/
structure EngineState where
  attempts : Nat
  current_error_type : Option RetryReason
  phase : Phase
deriving DecidableEq

/-- The strategy built in the `Ready` arm: the per-reason effective
strategy when a failure reason has been recorded, else the base policy
fields verbatim (`src/retry_future.rs` lines 64–76). -/
def effFor (c : RetryConfig) : Option RetryReason → EffectiveStrategy
  | some error_type => c.get_effective_strategy error_type
  | none =>
    { max_retries := c.max_retries
      base_delay := c.base_delay
      max_delay := c.max_delay
      backoff_multiplier := c.backoff_multiplier
      backoff_fn := c.backoff_fn }

/-- Result of one iteration of the `poll` loop: either continue in a new
state (emitting events) or return a terminal result. -/
inductive StepRes (σ : Type) where
  | cont (s : σ) (evs : List Ev)
  | halt (r : RetryResult) (evs : List Ev)

/-- One iteration of the `loop` in `RetryFuture::poll`
(`src/retry_future.rs` lines 57–237), with the pending transport / timer
outcome supplied. -/
def step (c : RetryConfig) (outcomes : Nat → Outcome) (s : EngineState) :
    StepRes EngineState :=
  match s.phase with
  | .ready =>
    let strategy := effFor c s.current_error_type
    if s.attempts > strategy.max_retries then
      .halt .maxRetriesExceeded []
    else if c.cloneable then
      .cont { s with phase := .requesting } [.send]
    else
      .halt .requestBuilderCloneError []
  | .requesting =>
    match outcomes s.attempts with
    | .ok response =>
      let error_type := c.response_classifier response
      if c.should_retry_response response then
        let strategy := c.get_effective_strategy error_type
        if s.attempts < strategy.max_retries then
          let attempts' := s.attempts + 1
          let delay := strategy.backoff_fn attempts' strategy.base_delay
            strategy.backoff_multiplier strategy.max_delay
          let evs := if c.on_retry then
              [.onRetryEv ⟨attempts', strategy.max_retries + 1, delay, none,
                some response.status, error_type⟩]
            else []
          .cont ⟨attempts', some error_type, .sleeping delay⟩ evs
        else
          .halt (.success response) []
      else
        .halt (.success response) []
    | .err error =>
      let error_type := c.error_classifier error
      if c.should_retry error then
        let strategy := c.get_effective_strategy error_type
        if s.attempts ≥ strategy.max_retries then
          let evs := if c.on_failure then
              [.onFailureEv ⟨s.attempts, strategy.max_retries + 1, 0,
                some error.msg, none, error_type⟩]
            else []
          .halt (.requestError error) evs
        else
          let attempts' := s.attempts + 1
          let delay := strategy.backoff_fn attempts' strategy.base_delay
            strategy.backoff_multiplier strategy.max_delay
          let evs := if c.on_retry then
              [.onRetryEv ⟨attempts', strategy.max_retries + 1, delay,
                some error.msg, none, error_type⟩]
            else []
          .cont ⟨attempts', some error_type, .sleeping delay⟩ evs
      else
        .halt (.nonRetryableError error) []
  | .sleeping d => .cont { s with phase := .ready } [.sleepFor d]

/-- Drive the engine for at most `fuel` loop iterations, accumulating the
event trace; `none` when `fuel` iterations do not reach a terminal
result. -/
def run (c : RetryConfig) (outcomes : Nat → Outcome) :
    Nat → EngineState → List Ev → Option (RetryResult × List Ev)
  | 0, _, _ => none
  | fuel + 1, s, acc =>
    match step c outcomes s with
    | .halt r evs => some (r, acc ++ evs)
    | .cont s' evs => run c outcomes fuel s' (acc ++ evs)

/-- `RetryFuture::new`: zero attempts, no recorded reason, `Ready`. -/
def initState : EngineState := ⟨0, none, .ready⟩

/-- Number of transport sends in a trace. -/
def countSend (evs : List Ev) : Nat :=
  evs.countP fun e => match e with | .send => true | _ => false

/-- Number of backoff sleeps in a trace. -/
def countSleep (evs : List Ev) : Nat :=
  evs.countP fun e => match e with | .sleepFor _ => true | _ => false

/-- Number of `on_failure` callback invocations in a trace. -/
def countOnFailure (evs : List Ev) : Nat :=
  evs.countP fun e => match e with | .onFailureEv _ => true | _ => false

/-- Number of `on_retry` callback invocations in a trace. -/
def countOnRetry (evs : List Ev) : Nat :=
  evs.countP fun e => match e with | .onRetryEv _ => true | _ => false

/-- Terminal result and event counts (sends, sleeps, `on_retry`,
`on_failure`) of a completed run. -/
def runStats (o : Option (RetryResult × List Ev)) :
    Option (RetryResult × Nat × Nat × Nat × Nat) :=
  o.map fun p => (p.1, countSend p.2, countSleep p.2, countOnRetry p.2,
    countOnFailure p.2)

/-! ### The legacy retry engine of `src/lib.rs` -/

/-- The legacy `RetryConfig` (`src/lib.rs` lines 32–45): base policy only,
no classifiers, strategies or callbacks. -/
structure LegacyConfig where
  max_retries : Nat
  base_delay : Duration
  max_delay : Duration
  backoff_multiplier : ℚ
  should_retry : Failure → Bool
  should_retry_response : Response → Bool
  cloneable : Bool

/-- The mutable fields of the legacy `RetryFuture` (`src/lib.rs`). -/
structure LegacyState where
  attempts : Nat
  phase : Phase
deriving DecidableEq

/-- One iteration of the `loop` in the legacy `RetryFuture::poll`
(`src/lib.rs` lines 195–309).  The inline delay computation
`base_delay * multiplier.powi(attempts)` capped at `max_delay` is the
formula `default_backoff` embeds, applied to the incremented counter. -/
def legacyStep (c : LegacyConfig) (outcomes : Nat → Outcome)
    (s : LegacyState) : StepRes LegacyState :=
  match s.phase with
  | .ready =>
    if s.attempts > c.max_retries then
      .halt .maxRetriesExceeded []
    else if c.cloneable then
      .cont { s with phase := .requesting } [.send]
    else
      .halt .requestBuilderCloneError []
  | .requesting =>
    match outcomes s.attempts with
    | .ok response =>
      if c.should_retry_response response && decide (s.attempts < c.max_retries) then
        let attempts' := s.attempts + 1
        let delay := default_backoff attempts' c.base_delay
          c.backoff_multiplier c.max_delay
        .cont ⟨attempts', .sleeping delay⟩ []
      else
        .halt (.success response) []
    | .err error =>
      if c.should_retry error then
        if s.attempts ≥ c.max_retries then
          .halt (.requestError error) []
        else
          let attempts' := s.attempts + 1
          let delay := default_backoff attempts' c.base_delay
            c.backoff_multiplier c.max_delay
          .cont ⟨attempts', .sleeping delay⟩ []
      else
        .halt (.nonRetryableError error) []
  | .sleeping d => .cont { s with phase := .ready } [.sleepFor d]

/-- Drive the legacy engine for at most `fuel` loop iterations. -/
def legacyRun (c : LegacyConfig) (outcomes : Nat → Outcome) :
    Nat → LegacyState → List Ev → Option (RetryResult × List Ev)
  | 0, _, _ => none
  | fuel + 1, s, acc =>
    match legacyStep c outcomes s with
    | .halt r evs => some (r, acc ++ evs)
    | .cont s' evs => legacyRun c outcomes fuel s' (acc ++ evs)

/-! ### Concrete configurations and transports used by the claims -/

/-- A transport that always completes with a 500 response. -/
def outcomes500 : Nat → Outcome := fun _ => .ok ⟨500⟩

/-- The default configuration with both telemetry callbacks installed. -/
def cfgDefaultObs : RetryConfig :=
  { RetryConfig.mkDefault with on_retry := true, on_failure := true }

/-- Base (3 retries, 100 ms) with a `RateLimit` override of (10 retries,
1 s): the policy-resolution example of the spec and of
`test_effective_strategy` in `src/tests.rs`. -/
def cfgC3 : RetryConfig :=
  { RetryConfig.mkDefault with
    error_strategies := [(.RateLimit, { max_retries := some 10, base_delay := some 1000 })] }

/-- A `max_retries = 0` policy carrying a `NetworkError` override with
`max_retries = 1` and a constant 7 ms backoff. -/
def cfgC2 : RetryConfig :=
  { RetryConfig.mkDefault with
    max_retries := 0
    error_strategies := [(.NetworkError, { max_retries := some 1 })]
    backoff_fn := fun _ _ _ _ => 7 }

/-- A transport that always fails with a timeout error. -/
def outcomesTimeout : Nat → Outcome :=
  fun _ => .err ⟨true, false, false, none, "timeout"⟩

/-- The default configuration with both callbacks installed and a
constant 7 ms backoff function. -/
def cfgObs7 : RetryConfig :=
  { RetryConfig.mkDefault with
    backoff_fn := fun _ _ _ _ => 7
    on_retry := true
    on_failure := true }

/-- The events emitted by one step. -/
def evsOf : StepRes EngineState → List Ev
  | .cont _ evs => evs
  | .halt _ evs => evs

/-- The telemetry contract of C8: every `RetryAttempt` passed to a
callback reports `max_attempts` equal to the effective `max_retries + 1`
for the failure reason it carries. -/
def telemOk (c : RetryConfig) : Ev → Prop
  | .onRetryEv a => a.max_attempts = (c.get_effective_strategy a.error_type).max_retries + 1
  | .onFailureEv a => a.max_attempts = (c.get_effective_strategy a.error_type).max_retries + 1
  | _ => True

/-- The budget invariant of C9: the attempt counter never exceeds the
effective `max_retries` resolved for the currently recorded failure
reason (the base `max_retries` before any reason is recorded). -/
def stateInv (c : RetryConfig) (s : EngineState) : Prop :=
  s.attempts ≤ (effFor c s.current_error_type).max_retries

/-- States reachable by the engine from its initial state, for a fixed
configuration and transport. -/
inductive Reachable (c : RetryConfig) (outcomes : Nat → Outcome) :
    EngineState → Prop where
  | init : Reachable c outcomes initState
  | next {s s' : EngineState} {evs : List Ev} : Reachable c outcomes s →
      step c outcomes s = .cont s' evs → Reachable c outcomes s'

/-- A `retry_future.rs` configuration in the scope of claim C10: empty
per-reason override map, no observers installed, and the plain
exponential `min(base_delay * multiplier ^ attempt, max_delay)` backoff;
classifiers and predicates arbitrary. -/
def mkPlainConfig (mr bd md : Nat) (bm : ℚ) (sr : Failure → Bool)
    (srr : Response → Bool) (ec : Failure → RetryReason)
    (rc : Response → RetryReason) (cl : Bool) : RetryConfig :=
  ⟨mr, bd, md, bm, sr, srr, default_backoff, false, false, [], ec, rc, cl⟩

/-- The legacy `lib.rs` configuration with the same tunables. -/
def mkLegacyConfig (mr bd md : Nat) (bm : ℚ) (sr : Failure → Bool)
    (srr : Response → Bool) (cl : Bool) : LegacyConfig :=
  ⟨mr, bd, md, bm, sr, srr, cl⟩

/-- Correspondence between a step of the `retry_future.rs` engine and a
step of the legacy `lib.rs` engine: identical terminal results and
events, and continuation states agreeing on counter and phase. -/
def resRel : StepRes EngineState → StepRes LegacyState → Prop
  | .halt r2 e2, .halt r1 e1 => r2 = r1 ∧ e2 = e1
  | .cont s2 e2, .cont s1 e1 =>
      s2.attempts = s1.attempts ∧ s2.phase = s1.phase ∧ e2 = e1
  | _, _ => False

/-! ### Theorems -/

/-- Clamping a minimum with `max_delay` through the saturating `as u64`
cast never exceeds `max_delay`. -/
theorem u64clampQ_min_le (j : ℚ) (mx : Nat) : u64clampQ (min j (mx : ℚ)) ≤ mx := by
  unfold u64clampQ
  split
  · exact Nat.zero_le _
  · refine le_trans (Nat.min_le_left _ _) ?_
    rw [Int.toNat_le]
    refine le_trans (Int.floor_le_floor (min_le_right j _)) ?_
    rw [Int.floor_natCast]

/-- C5.  The fibonacci backoff matches the claimed formula
`min(base * max(F(attempt+1), 1), max_delay)` on the spec's pinned
instances (`fibonacci(1,100ms,_,10s)=100ms` etc.), but NOT for every
input: the multiplication `base_delay_ms * fib_multiplier` in
`src/backoff.rs` line 78 is an unchecked `u64` multiplication, so at
`attempt = 2`, `base_delay = 2^63 ms`, `max_delay = 1000 ms` the product
`2^63 * F(3) = 2^64` wraps to `0` and the function returns `0 ms`,
whereas the claimed (and spec §4.1-mandated, saturating) formula yields
`min(2^63 * 2, 1000) = 1000 ms`.  The spec is the intent (spec line 37
forbids wrapping); the code is the slip. -/
theorem c5_fibonacci_formula_and_overflow_bug :
    fibonacci 1 100 2 10000 = 100 ∧ fibonacci 2 100 2 10000 = 200 ∧
    fibonacci 3 100 2 10000 = 300 ∧
    fibonacci 2 (2 ^ 63) 2 1000 = 0 ∧
    min (2 ^ 63 * max (fib 3) 1) 1000 = 1000 := by
  decide

/-- C6, counterexample.  `fixed` returns `base_delay` verbatim for
`attempt ≥ 1` with no clamp, so with `base_delay = 200 ms` and
`max_delay = 100 ms` its result lies outside `[0, max_delay]`. -/
theorem c6_counterexample : fixed 1 200 2 100 = 200 ∧ ¬ fixed 1 200 2 100 ≤ 100 := by
  decide

/-- C6, amended.  For every attempt and all arguments, `linear`,
`fibonacci` and `exponential_jitter` (for every hasher) return a delay of
at most `max_delay`; `fixed` does so provided `base_delay ≤ max_delay`
(the configuration-time assumption the spec itself notes for `fixed`).
Delays are naturals, hence always `≥ 0`. -/
theorem c6_amended_backoff_bounded (hash64 : Nat → Nat) (a d : Nat) (m : ℚ)
    (mx : Nat) :
    linear a d m mx ≤ mx ∧ fibonacci a d m mx ≤ mx ∧
    exponential_jitter hash64 a d m mx ≤ mx ∧
    (d ≤ mx → fixed a d m mx ≤ mx) := by
  refine ⟨?_, ?_, ?_, ?_⟩
  · exact le_trans (Nat.min_le_right _ _) (Nat.mod_le _ _)
  · exact le_trans (Nat.min_le_right _ _) (Nat.mod_le _ _)
  · exact u64clampQ_min_le _ _
  · intro h
    unfold fixed
    split
    · exact Nat.zero_le _
    · exact h

/-- C6, witness for the amended theorem at concrete arguments. -/
theorem c6_amended_backoff_bounded_witness :
    linear 2 100 2 1000 ≤ 1000 ∧ fibonacci 2 100 2 1000 ≤ 1000 ∧
    exponential_jitter id 2 100 2 1000 ≤ 1000 ∧ fixed 2 100 2 1000 ≤ 1000 :=
  ⟨(c6_amended_backoff_bounded id 2 100 2 1000).1,
   (c6_amended_backoff_bounded id 2 100 2 1000).2.1,
   (c6_amended_backoff_bounded id 2 100 2 1000).2.2.1,
   (c6_amended_backoff_bounded id 2 100 2 1000).2.2.2 (by decide)⟩

/-- C7.  `linear` does not saturate: the multiplication
`base_delay.as_millis() as u64 * attempt as u64` in `src/backoff.rs`
line 12 is an unchecked `u64` multiplication, so at `attempt = 2^32`,
`base_delay = 2^32 ms` the product `2^64` wraps to `0` and the function
returns `0 ms` instead of saturating toward `max_delay` (the true product
capped at `max_delay` would be `1000 ms`).  In a debug build the same
input panics on overflow.  The spec (line 37) is the intent; the code is
the slip. -/
theorem c7_linear_overflow_bug :
    linear (2 ^ 32) (2 ^ 32) 2 1000 = 0 ∧ min (2 ^ 32 * 2 ^ 32) 1000 = 1000 := by
  decide

/-- C3.  Policy resolution is field-wise: with no override for the reason
the effective strategy is the base policy verbatim; with an override,
each field is the override's when set, else the base policy's; and on the
spec's concrete example (base `(3, 100 ms)`, `RateLimit` override
`(10, 1 s)`) resolving `RateLimit` yields `(10, 1000 ms)` and resolving
`NetworkError` yields `(3, 100 ms)`. -/
theorem c3_policy_resolution :
    (∀ (c : RetryConfig) (r : RetryReason),
      List.lookup r c.error_strategies = none →
        c.get_effective_strategy r =
          ⟨c.max_retries, c.base_delay, c.max_delay, c.backoff_multiplier,
           c.backoff_fn⟩) ∧
    (∀ (c : RetryConfig) (r : RetryReason) (s : ErrorStrategy),
      List.lookup r c.error_strategies = some s →
        c.get_effective_strategy r =
          ⟨s.max_retries.getD c.max_retries, s.base_delay.getD c.base_delay,
           s.max_delay.getD c.max_delay,
           s.backoff_multiplier.getD c.backoff_multiplier,
           s.backoff_fn.getD c.backoff_fn⟩) ∧
    cfgC3.get_effective_strategy .RateLimit = ⟨10, 1000, 30000, 2, default_backoff⟩ ∧
    cfgC3.get_effective_strategy .NetworkError = ⟨3, 100, 30000, 2, default_backoff⟩ := by
  refine ⟨?_, ?_, rfl, rfl⟩
  · intro c r h
    simp [RetryConfig.get_effective_strategy, h]
  · intro c r s h
    simp [RetryConfig.get_effective_strategy, h]

/-- C3, witness: resolving a reason with no override under the default
configuration yields the base fields verbatim. -/
theorem c3_policy_resolution_witness :
    RetryConfig.mkDefault.get_effective_strategy .NetworkError =
      ⟨3, 100, 30000, 2, default_backoff⟩ :=
  c3_policy_resolution.1 RetryConfig.mkDefault .NetworkError rfl

/-- C1, counterexample.  Under the default policy a transport that always
completes with a 500 *response* takes the `Ok` branch of `poll`: the run
performs 4 sends and 3 sleeps and then terminates *successfully* with the
last 500 response — it yields no budget-exhausted error and emits no
`on_failure` telemetry event (that event exists only on the transport-
failure branch), refuting the claimed `BudgetExhausted` terminal error
and the claimed single `on_failure` event. -/
theorem c1_counterexample :
    runStats (run RetryConfig.mkDefault outcomes500 20 initState []) =
      some (.success ⟨500⟩, 4, 3, 0, 0) := rfl

/-- C1, amended.  If the transport always returns a 500 response under the
default policy (`max_retries = 3`, here with both observers installed so
telemetry is visible), the run performs exactly 4 attempts with 3 sleeps
and terminates successfully with the 500 response; it emits three
`on_retry` telemetry events and no `on_failure` event. -/
theorem c1_amended_four_attempts_success :
    runStats (run cfgDefaultObs outcomes500 20 initState []) =
      some (.success ⟨500⟩, 4, 3, 3, 0) := rfl

/-- C2, counterexample.  A policy whose base `max_retries` is 0 may still
carry a per-reason override: with a `NetworkError` override of
`max_retries = 1`, a transport that keeps timing out drives the engine
through a sleep and a second attempt, refuting "exactly one transport
attempt" and "never enters the Sleeping state" for arbitrary policies
with `max_retries = 0`. -/
theorem c2_counterexample :
    run cfgC2 outcomesTimeout 10 initState [] =
      some (.requestError ⟨true, false, false, none, "timeout"⟩,
        [.send, .sleepFor 7, .send]) ∧
    countSend [Ev.send, .sleepFor 7, .send] = 2 ∧
    countSleep [Ev.send, .sleepFor 7, .send] = 1 := by
  decide

/-- C2, amended.  For every policy with `max_retries = 0` and an empty
per-reason override map, and a duplicable request: the run issues exactly
one transport attempt (the first attempt is always issued), never sleeps,
and if that attempt fails it terminates with the budget-exhausted error
(`RequestError`, wrapping the failure) or the `NonRetryable` error. -/
theorem c2_amended_single_attempt (bd md : Duration) (bm : ℚ)
    (sr : Failure → Bool) (srr : Response → Bool) (bf : BackoffFnT)
    (ort onf : Bool) (ec : Failure → RetryReason) (rc : Response → RetryReason)
    (outcomes : Nat → Outcome) (fuel : Nat) (r : RetryResult) (evs : List Ev)
    (h : run ⟨0, bd, md, bm, sr, srr, bf, ort, onf, [], ec, rc, true⟩
      outcomes fuel initState [] = some (r, evs)) :
    countSend evs = 1 ∧ countSleep evs = 0 ∧
    ∀ e, outcomes 0 = .err e → r = .requestError e ∨ r = .nonRetryableError e := by
  set c : RetryConfig := ⟨0, bd, md, bm, sr, srr, bf, ort, onf, [], ec, rc, true⟩
    with hc
  obtain _ | fuel := fuel
  · simp [run] at h
  have h1 : step c outcomes initState = .cont ⟨0, none, .requesting⟩ [.send] := rfl
  rw [run, h1] at h
  simp only [List.nil_append] at h
  obtain _ | fuel := fuel
  · simp [run] at h
  rw [run] at h
  rcases hout : outcomes 0 with resp | e0
  · have h2 : step c outcomes ⟨0, none, .requesting⟩ = .halt (.success resp) [] := by
      simp only [step, hout]
      cases hsrr : c.should_retry_response resp <;>
        simp [RetryConfig.get_effective_strategy]
    rw [h2] at h
    simp only [List.append_nil, Option.some.injEq, Prod.mk.injEq] at h
    obtain ⟨hr, hevs⟩ := h
    subst hr
    subst hevs
    refine ⟨rfl, rfl, ?_⟩
    intro e he
    exact Outcome.noConfusion he
  · cases hsr : sr e0
    · have h2 : step c outcomes ⟨0, none, .requesting⟩ =
          .halt (.nonRetryableError e0) [] := by
        simp [step, hout, hsr, hc]
      rw [h2] at h
      simp only [List.append_nil, Option.some.injEq, Prod.mk.injEq] at h
      obtain ⟨hr, hevs⟩ := h
      subst hr
      subst hevs
      refine ⟨rfl, rfl, ?_⟩
      intro e he
      injection he with he'
      subst he'
      exact Or.inr rfl
    · have h2 : step c outcomes ⟨0, none, .requesting⟩ =
          .halt (.requestError e0)
            (if onf then [.onFailureEv ⟨0, 1, 0, some e0.msg, none, ec e0⟩]
             else []) := by
        simp [step, hout, hsr, hc, RetryConfig.get_effective_strategy]
      rw [h2] at h
      simp only [Option.some.injEq, Prod.mk.injEq] at h
      obtain ⟨hr, hevs⟩ := h
      subst hr
      subst hevs
      cases onf
      · exact ⟨rfl, rfl, fun e he => by
          injection he with he'; subst he'; exact Or.inl rfl⟩
      · exact ⟨rfl, rfl, fun e he => by
          injection he with he'; subst he'; exact Or.inl rfl⟩

/-- C2, witness: a concrete `max_retries = 0` run (no overrides, transport
fails once) issues one send, never sleeps, and ends in `RequestError`. -/
theorem c2_amended_single_attempt_witness :
    countSend [Ev.send] = 1 ∧ countSleep [Ev.send] = 0 ∧
    ∀ e, outcomesTimeout 0 = .err e →
      RetryResult.requestError ⟨true, false, false, none, "timeout"⟩ =
          .requestError e ∨
        RetryResult.requestError ⟨true, false, false, none, "timeout"⟩ =
          .nonRetryableError e :=
  c2_amended_single_attempt 100 30000 2 default_should_retry_error
    default_should_retry_response default_backoff false false
    default_error_classifier default_response_classifier outcomesTimeout 10
    (.requestError ⟨true, false, false, none, "timeout"⟩) [Ev.send] (by decide)

/-- C4.  Whenever the transport attempt completes with a failure the
configured `should_retry` predicate rejects, one `poll` iteration
terminates at once with `NonRetryableError`, emitting no sleep and no
telemetry, regardless of the remaining budget (no hypothesis about
`attempts` or any `max_retries` is needed); consequently the whole run
returns `NonRetryableError` with no further events. -/
theorem c4_predicate_terminal (c : RetryConfig) (outcomes : Nat → Outcome)
    (s : EngineState) (e : Failure) (hph : s.phase = .requesting)
    (hout : outcomes s.attempts = .err e) (hsr : c.should_retry e = false) :
    step c outcomes s = .halt (.nonRetryableError e) [] ∧
    ∀ fuel acc, run c outcomes (fuel + 1) s acc = some (.nonRetryableError e, acc) := by
  have hstep : step c outcomes s = .halt (.nonRetryableError e) [] := by
    simp [step, hph, hout, hsr]
  exact ⟨hstep, fun fuel acc => by simp [run, hstep]⟩

/-- C4, witness: with a predicate that always declines, a timed-out
attempt at `attempts = 0` under a budget of 3 still terminates with
`NonRetryableError` immediately. -/
theorem c4_predicate_terminal_witness :
    step { RetryConfig.mkDefault with should_retry := fun _ => false }
        outcomesTimeout ⟨0, none, .requesting⟩ =
      .halt (.nonRetryableError ⟨true, false, false, none, "timeout"⟩) [] :=
  (c4_predicate_terminal
    { RetryConfig.mkDefault with should_retry := fun _ => false }
    outcomesTimeout ⟨0, none, .requesting⟩ ⟨true, false, false, none, "timeout"⟩
    rfl rfl rfl).1

/-- Every telemetry value emitted by a single step satisfies the C8
contract: the event is built with `max_attempts := strategy.max_retries + 1`
where `strategy` is the effective strategy for exactly the reason stored
in the event. -/
theorem step_telemOk (c : RetryConfig) (outcomes : Nat → Outcome)
    (s : EngineState) : ∀ e ∈ evsOf (step c outcomes s), telemOk c e := by
  obtain ⟨att, cet, ph⟩ := s
  cases ph with
  | ready =>
    simp only [step]
    split_ifs <;> simp [evsOf, telemOk]
  | requesting =>
    rcases hout : outcomes att with resp | e0 <;> simp only [step, hout] <;>
      split_ifs <;> simp [evsOf, telemOk]
  | sleeping d =>
    simp [step, evsOf, telemOk]

/-- The C8 contract extends from single steps to whole runs. -/
theorem run_telemOk (c : RetryConfig) (outcomes : Nat → Outcome) :
    ∀ (fuel : Nat) (s : EngineState) (acc : List Ev) (r : RetryResult)
      (evs : List Ev),
      run c outcomes fuel s acc = some (r, evs) →
      (∀ e ∈ acc, telemOk c e) → ∀ e ∈ evs, telemOk c e := by
  intro fuel
  induction fuel with
  | zero =>
    intro s acc r evs h _
    exact absurd h (by simp [run])
  | succ n ih =>
    intro s acc r evs h hacc
    simp only [run] at h
    cases hstep : step c outcomes s with
    | halt r' evs' =>
      rw [hstep] at h
      injection h with hp
      injection hp with hr hevs
      subst hr
      subst hevs
      intro e he
      rcases List.mem_append.1 he with h1 | h2
      · exact hacc e h1
      · have hs := step_telemOk c outcomes s
        rw [hstep] at hs
        exact hs e h2
    | cont s' evs' =>
      rw [hstep] at h
      refine ih s' (acc ++ evs') r evs h ?_
      intro e he
      rcases List.mem_append.1 he with h1 | h2
      · exact hacc e h1
      · have hs := step_telemOk c outcomes s
        rw [hstep] at hs
        exact hs e h2

/-- C8.  In every completed run, every `RetryAttempt` passed to an
`on_retry` or `on_failure` observer has `max_attempts` equal to the
effective strategy's `max_retries + 1` for the failure reason that drove
the attempt (the reason recorded in the event itself). -/
theorem c8_telemetry_max_attempts (c : RetryConfig) (outcomes : Nat → Outcome)
    (fuel : Nat) (r : RetryResult) (evs : List Ev)
    (h : run c outcomes fuel initState [] = some (r, evs)) :
    ∀ e ∈ evs, telemOk c e :=
  run_telemOk c outcomes fuel initState [] r evs h (by simp)

/-- C8, witness: the `on_failure` event of a concrete exhausted run under
the default budget reports `max_attempts = 4 = 3 + 1`. -/
theorem c8_telemetry_max_attempts_witness :
    telemOk cfgObs7
      (.onFailureEv ⟨3, 4, 0, some "timeout", none, .NetworkError⟩) :=
  c8_telemetry_max_attempts cfgObs7 outcomesTimeout 20
    (.requestError ⟨true, false, false, none, "timeout"⟩)
    [Ev.send, .onRetryEv ⟨1, 4, 7, some "timeout", none, .NetworkError⟩,
     .sleepFor 7, .send,
     .onRetryEv ⟨2, 4, 7, some "timeout", none, .NetworkError⟩,
     .sleepFor 7, .send,
     .onRetryEv ⟨3, 4, 7, some "timeout", none, .NetworkError⟩,
     .sleepFor 7, .send,
     .onFailureEv ⟨3, 4, 0, some "timeout", none, .NetworkError⟩]
    (by decide)
    (.onFailureEv ⟨3, 4, 0, some "timeout", none, .NetworkError⟩) (by decide)

/-- A continuing step preserves the budget invariant of C9. -/
theorem step_preserves_inv (c : RetryConfig) (outcomes : Nat → Outcome)
    {s s' : EngineState} {evs : List Ev} (hinv : stateInv c s)
    (hstep : step c outcomes s = .cont s' evs) : stateInv c s' := by
  obtain ⟨att, cet, ph⟩ := s
  cases ph with
  | ready =>
    simp only [step] at hstep
    split_ifs at hstep
    injection hstep with hs' hevs
    subst hs'
    exact hinv
  | requesting =>
    rcases hout : outcomes att with resp | e0 <;>
      simp only [step, hout] at hstep
    · split_ifs at hstep with h1 h2
      all_goals
        injection hstep with hs' hevs
        subst hs'
        exact h2
    · split_ifs at hstep with h1 h2
      all_goals
        injection hstep with hs' hevs
        subst hs'
        exact Nat.lt_of_not_le h2
  | sleeping d =>
    simp only [step] at hstep
    injection hstep with hs' hevs
    subst hs'
    exact hinv

/-- Under the budget invariant, a step never halts with
`MaxRetriesExceeded`: the `Ready`-state guard cannot fire. -/
theorem step_no_budget_halt (c : RetryConfig) (outcomes : Nat → Outcome)
    {s : EngineState} (hinv : stateInv c s) (evs : List Ev) :
    step c outcomes s ≠ .halt .maxRetriesExceeded evs := by
  obtain ⟨att, cet, ph⟩ := s
  intro h
  cases ph with
  | ready =>
    simp only [step] at h
    rw [if_neg (Nat.not_lt.2 hinv)] at h
    split_ifs at h
    all_goals
      first
        | exact StepRes.noConfusion h
        | (injection h with h1 h2; exact RetryResult.noConfusion h1)
  | requesting =>
    rcases hout : outcomes att with resp | e0 <;>
      simp only [step, hout] at h <;>
      split_ifs at h <;>
      first
        | exact StepRes.noConfusion h
        | (injection h with h1 h2; exact RetryResult.noConfusion h1)
  | sleeping d =>
    exact StepRes.noConfusion h

/-- From any state satisfying the budget invariant, a run never
terminates with `MaxRetriesExceeded`. -/
theorem run_no_budget (c : RetryConfig) (outcomes : Nat → Outcome) :
    ∀ (fuel : Nat) (s : EngineState) (acc : List Ev) (r : RetryResult)
      (evs : List Ev), stateInv c s →
      run c outcomes fuel s acc = some (r, evs) → r ≠ .maxRetriesExceeded := by
  intro fuel
  induction fuel with
  | zero =>
    intro s acc r evs _ h
    exact absurd h (by simp [run])
  | succ n ih =>
    intro s acc r evs hinv h
    simp only [run] at h
    cases hstep : step c outcomes s with
    | halt r' evs' =>
      rw [hstep] at h
      injection h with hp
      injection hp with hr hevs
      subst hr
      intro hmax
      subst hmax
      exact step_no_budget_halt c outcomes hinv evs' hstep
    | cont s' evs' =>
      rw [hstep] at h
      exact ih s' (acc ++ evs') r evs
        (step_preserves_inv c outcomes hinv hstep) h

/-- C9.  Every reachable engine state (in particular every `Ready` state)
satisfies the budget invariant `attempts ≤ effective max_retries` for the
currently recorded failure reason (base policy before any reason);
consequently the guard in the `Ready` arm never fires and no run from
the initial state ever yields `MaxRetriesExceeded`. -/
theorem c9_budget_guard_unreachable (c : RetryConfig)
    (outcomes : Nat → Outcome) :
    (∀ s, Reachable c outcomes s → stateInv c s) ∧
    (∀ fuel r evs, run c outcomes fuel initState [] = some (r, evs) →
      r ≠ .maxRetriesExceeded) := by
  constructor
  · intro s hs
    induction hs with
    | init => exact Nat.zero_le _
    | next hr hstep ih => exact step_preserves_inv c outcomes ih hstep
  · intro fuel r evs h
    exact run_no_budget c outcomes fuel initState [] r evs (Nat.zero_le _) h

/-- C9, witness: the initial state satisfies the invariant under the
default configuration, and a concrete exhausted run terminates with
`RequestError`, not `MaxRetriesExceeded`. -/
theorem c9_budget_guard_unreachable_witness :
    stateInv cfgC2 initState ∧
    RetryResult.requestError ⟨true, false, false, none, "timeout"⟩ ≠
      .maxRetriesExceeded :=
  ⟨(c9_budget_guard_unreachable cfgC2 outcomesTimeout).1 initState .init,
   (c9_budget_guard_unreachable cfgC2 outcomesTimeout).2 10
     (.requestError ⟨true, false, false, none, "timeout"⟩)
     [Ev.send, .sleepFor 7, .send] (by decide)⟩

/-- With an empty override map, no observers and the default exponential
backoff, each step of the `retry_future.rs` engine corresponds exactly to
the step of the legacy `lib.rs` engine at the same counter and phase. -/
theorem step_rel_legacy (mr bd md : Nat) (bm : ℚ) (sr : Failure → Bool)
    (srr : Response → Bool) (ec : Failure → RetryReason)
    (rc : Response → RetryReason) (cl : Bool) (outcomes : Nat → Outcome)
    (att : Nat) (cet : Option RetryReason) (ph : Phase) :
    resRel (step (mkPlainConfig mr bd md bm sr srr ec rc cl) outcomes ⟨att, cet, ph⟩)
      (legacyStep (mkLegacyConfig mr bd md bm sr srr cl) outcomes ⟨att, ph⟩) := by
  cases ph with
  | ready =>
    cases cet <;>
      simp only [step, legacyStep, effFor, mkPlainConfig, mkLegacyConfig,
        RetryConfig.get_effective_strategy, List.lookup] <;>
      by_cases h : att > mr <;> by_cases hcl : cl <;>
      simp [h, hcl, resRel]
  | requesting =>
    rcases hout : outcomes att with resp | e0 <;>
      simp only [step, legacyStep, hout, mkPlainConfig, mkLegacyConfig,
        RetryConfig.get_effective_strategy, List.lookup]
    · by_cases hsrr : srr resp = true <;> by_cases hlt : att < mr <;>
        simp [hsrr, hlt, resRel]
    · by_cases hsr : sr e0 = true <;> by_cases hge : att ≥ mr <;>
        simp [hsr, hge, resRel]
  | sleeping d =>
    simp [step, legacyStep, resRel]

/-- The step correspondence extends to whole runs: from corresponding
states, the two engines return the same optional terminal result and
event trace. -/
theorem run_eq_legacy (mr bd md : Nat) (bm : ℚ) (sr : Failure → Bool)
    (srr : Response → Bool) (ec : Failure → RetryReason)
    (rc : Response → RetryReason) (cl : Bool) (outcomes : Nat → Outcome) :
    ∀ (fuel att : Nat) (cet : Option RetryReason) (ph : Phase) (acc : List Ev),
      run (mkPlainConfig mr bd md bm sr srr ec rc cl) outcomes fuel
          ⟨att, cet, ph⟩ acc =
        legacyRun (mkLegacyConfig mr bd md bm sr srr cl) outcomes fuel
          ⟨att, ph⟩ acc := by
  intro fuel
  induction fuel with
  | zero => intro att cet ph acc; rfl
  | succ n ih =>
    intro att cet ph acc
    have hrel := step_rel_legacy mr bd md bm sr srr ec rc cl outcomes att cet ph
    simp only [run, legacyRun]
    cases h2 : step (mkPlainConfig mr bd md bm sr srr ec rc cl) outcomes
        ⟨att, cet, ph⟩ with
    | halt r2 e2 =>
      cases h1 : legacyStep (mkLegacyConfig mr bd md bm sr srr cl) outcomes
          ⟨att, ph⟩ with
      | halt r1 e1 =>
        rw [h2, h1] at hrel
        simp only [resRel] at hrel
        obtain ⟨hr, he⟩ := hrel
        subst hr
        subst he
        rfl
      | cont s1 e1 =>
        rw [h2, h1] at hrel
        simp only [resRel] at hrel
    | cont s2 e2 =>
      cases h1 : legacyStep (mkLegacyConfig mr bd md bm sr srr cl) outcomes
          ⟨att, ph⟩ with
      | halt r1 e1 =>
        rw [h2, h1] at hrel
        simp only [resRel] at hrel
      | cont s1 e1 =>
        rw [h2, h1] at hrel
        simp only [resRel] at hrel
        obtain ⟨hatt, hph, hevs⟩ := hrel
        subst hevs
        show run (mkPlainConfig mr bd md bm sr srr ec rc cl) outcomes n
            ⟨s2.attempts, s2.current_error_type, s2.phase⟩ (acc ++ e2) =
          legacyRun (mkLegacyConfig mr bd md bm sr srr cl) outcomes n
            ⟨s1.attempts, s1.phase⟩ (acc ++ e2)
        rw [hatt, hph]
        exact ih s1.attempts s2.current_error_type s1.phase (acc ++ e2)

/-- C10.  For every configuration with an empty per-reason override map,
no observers, and the backoff `min(base_delay * multiplier ^ attempt,
max_delay)` (the crate's default), and for every transport-outcome
sequence, the `retry_future.rs` engine and the legacy `lib.rs` engine
produce identical results: the same terminal value (same successful
response or error of the same constructor) and the same event trace — in
particular the same sequence of sleep delays. -/
theorem c10_engines_equivalent (mr bd md : Nat) (bm : ℚ) (sr : Failure → Bool)
    (srr : Response → Bool) (ec : Failure → RetryReason)
    (rc : Response → RetryReason) (cl : Bool) (outcomes : Nat → Outcome)
    (fuel : Nat) :
    run (mkPlainConfig mr bd md bm sr srr ec rc cl) outcomes fuel initState [] =
      legacyRun (mkLegacyConfig mr bd md bm sr srr cl) outcomes fuel
        ⟨0, .ready⟩ [] :=
  run_eq_legacy mr bd md bm sr srr ec rc cl outcomes fuel 0 none .ready []

end ReqwestRetry

